import Mathlib

/-!
Verification of `megatron/core/dist_checkpointing/strategies/base.py`:
the default-strategy registry, the load/save strategy interface defaults,
and the synchronous facade over the async save protocol.

The registry (`default_strategies`, `register_default_strategy`,
`get_default_strategy`) is embedded directly from the source.  The backend
self-registration routines (`register_default_tensorstore_strategies`,
`register_default_zarr_strategies`, `register_default_torch_strategies`)
live in modules that are not part of the sources under verification, so
they are modelled from the spec as opaque routines that either perform a
sequence of `register` calls or raise a Python exception.
-/

namespace Megatron

/-- The `StrategyAction` enum from the source: save vs load, sharded vs common. -/
inductive StrategyAction where
  | LOAD_COMMON
  | LOAD_SHARDED
  | SAVE_COMMON
  | SAVE_SHARDED
deriving DecidableEq

/-- `StrategyAction.value`: the string payload of each enum member. -/
def StrategyAction.value : StrategyAction → String
  | .LOAD_COMMON => "load_common"
  | .LOAD_SHARDED => "load_sharded"
  | .SAVE_COMMON => "save_common"
  | .SAVE_SHARDED => "save_sharded"

/-- The state of `default_strategies: DefaultDict[str, dict[tuple, Any]]`,
as a point lookup: action-value string and `(backend, version)` tuple to
registered strategy.  `S` is the type of strategy instances. -/
def Registry (S : Type) := String → String × Int → Option S

/-- The initial (empty) `default_strategies` mapping. -/
def emptyRegistry {S : Type} : Registry S := fun _ _ => none

/-- `register_default_strategy`: stores `strategy` under
`default_strategies[action.value][(backend, version)]`, overwriting any
prior entry. -/
def register_default_strategy {S : Type} (action : StrategyAction) (backend : String)
    (version : Int) (strategy : S) (reg : Registry S) : Registry S :=
  fun a k =>
    if a = action.value ∧ k = (backend, version) then some strategy else reg a k

/-- A Python exception raised by a backend activation routine: either an
`ImportError` (the only kind `get_default_strategy` catches) or any other
exception kind. -/
inductive PyErr where
  | importError (msg : String)
  | otherError (msg : String)
deriving DecidableEq

/-- Modelled from the spec: a backend self-registration routine is "a
side-effecting call that itself performs zero or more `register` calls",
and may instead fail (e.g. with an import-style error when an optional
dependency is absent).  The concrete routines are in backend modules that
are outside the verified sources. -/
inductive ActivationRoutine (S : Type) where
  | registers (regs : List (StrategyAction × String × Int × S))
  | fails (e : PyErr)

/-- Perform a sequence of `register_default_strategy` calls in order. -/
def runRegs {S : Type} (l : List (StrategyAction × String × Int × S)) (reg : Registry S) :
    Registry S :=
  l.foldl (fun r q => register_default_strategy q.1 q.2.1 q.2.2.1 q.2.2.2 r) reg

/-- Run one activation routine on the registry: it either registers its
whole list of strategies or raises. -/
def ActivationRoutine.run {S : Type} : ActivationRoutine S → Registry S → Except PyErr (Registry S)
  | .registers l, reg => .ok (runRegs l reg)
  | .fails e, _ => .error e

/-- Modelled from the spec: the three backend self-registration routines
imported by `get_default_strategy` from the `tensorstore`, `zarr` and
`torch` backend modules (modules not among the verified sources). -/
structure Env (S : Type) where
  register_default_tensorstore_strategies : ActivationRoutine S
  register_default_zarr_strategies : ActivationRoutine S
  register_default_torch_strategies : ActivationRoutine S

/-- The hint string set by `get_default_strategy` for the zarr backend. -/
def zarrHint : String := " Please install `zarr` and `tensorstore!=0.1.46` packages"

/-- The hint string set by `get_default_strategy` for the torch_dist backend. -/
def torchHint : String := " Please use PyTorch version >=2.1"

/-- Outcome of the activation (first `try`) block of `get_default_strategy`:
the `error_hint` in scope, the registry after whichever routines completed,
the exception raised (if any), and the trace of routines invoked, in order. -/
structure ActivationOutcome (S : Type) where
  error_hint : String
  registry : Registry S
  err : Option PyErr
  trace : List String

/-- The activation block of `get_default_strategy` (source lines 31-45):
for backend `zarr` run the tensorstore then the zarr registration routines,
for `torch_dist` run the torch registration routine, otherwise do nothing.
This is attempted on every call, unconditionally on the registry contents. -/
def Env.apply {S : Type} (env : Env S) (backend : String) (reg : Registry S) :
    ActivationOutcome S :=
  if backend = "zarr" then
    match env.register_default_tensorstore_strategies.run reg with
    | .error e => ⟨zarrHint, reg, some e, ["register_default_tensorstore_strategies"]⟩
    | .ok r1 =>
      match env.register_default_zarr_strategies.run r1 with
      | .error e =>
        ⟨zarrHint, r1, some e,
          ["register_default_tensorstore_strategies", "register_default_zarr_strategies"]⟩
      | .ok r2 =>
        ⟨zarrHint, r2, none,
          ["register_default_tensorstore_strategies", "register_default_zarr_strategies"]⟩
  else if backend = "torch_dist" then
    match env.register_default_torch_strategies.run reg with
    | .error e => ⟨torchHint, reg, some e, ["register_default_torch_strategies"]⟩
    | .ok r1 => ⟨torchHint, r1, none, ["register_default_torch_strategies"]⟩
  else ⟨"", reg, none, []⟩

/-- Rendering of the `(action.value, backend, version)` tuple interpolated
into the exception messages (Python string quoting elided). -/
def identRepr (action : StrategyAction) (backend : String) (version : Int) : String :=
  "(" ++ action.value ++ ", " ++ backend ++ ", " ++ toString version ++ ")"

/-- Message of the `CheckpointingException` raised when a backend
activation routine raises `ImportError`. -/
def cannotImportMsg (action : StrategyAction) (backend : String) (version : Int)
    (errText hint : String) : String :=
  "Cannot import a default strategy for: " ++ identRepr action backend version ++
    ". Error: " ++ errText ++ ". Hint: " ++ hint

/-- Message of the `CheckpointingException` raised when the exact triple is
not in `default_strategies`. -/
def cannotFindMsg (action : StrategyAction) (backend : String) (version : Int) : String :=
  "Cannot find a default strategy for: " ++ identRepr action backend version

/-- What a call to `get_default_strategy` can produce: a strategy, a raised
`CheckpointingException` (the checkpointing-domain error), or an exception
that escapes the function unwrapped (anything the activation routine raises
that is not an `ImportError`). -/
inductive GetResult (S : Type) where
  | ok (strategy : S)
  | checkpointingException (msg : String)
  | uncaught (e : PyErr)
deriving DecidableEq

/-- `get_default_strategy(action, backend, version)`: run the activation
block; wrap an `ImportError` into a `CheckpointingException` carrying the
identity and the `error_hint`; let any other exception escape; then look up
`default_strategies[action.value][(backend, version)]`, wrapping the
`KeyError` of a missing triple into a `CheckpointingException`.  Returns the
result together with the post-activation registry and the trace of
activation routines invoked. -/
def get_default_strategy {S : Type} (env : Env S) (action : StrategyAction) (backend : String)
    (version : Int) (reg : Registry S) : GetResult S × Registry S × List String :=
  let out := env.apply backend reg
  (match out.err, out.registry action.value (backend, version) with
    | some (PyErr.importError m), _ =>
      GetResult.checkpointingException (cannotImportMsg action backend version m out.error_hint)
    | some (PyErr.otherError m), _ => GetResult.uncaught (PyErr.otherError m)
    | none, some s => GetResult.ok s
    | none, none => GetResult.checkpointingException (cannotFindMsg action backend version),
   out.registry, out.trace)

/-- `StrategyAction.value` is injective: distinct enum members carry
distinct strings, so the two-level dict keys separate identities. -/
theorem StrategyAction.value_inj : ∀ a b : StrategyAction, a.value = b.value → a = b := by
  intro a b h
  cases a <;> cases b <;> first | rfl | exact absurd h (by decide)

/-- Registering stores the strategy at exactly its own key. -/
theorem register_lookup_self {S : Type} (action : StrategyAction) (backend : String)
    (version : Int) (s : S) (reg : Registry S) :
    register_default_strategy action backend version s reg action.value (backend, version) =
      some s := by
  simp [register_default_strategy]

/-- A backend other than zarr and torch_dist has no activation routine:
the activation block is a no-op. -/
theorem Env.apply_no_routine {S : Type} (env : Env S) (backend : String) (reg : Registry S)
    (h : ¬(backend = "zarr" ∨ backend = "torch_dist")) :
    env.apply backend reg = ⟨"", reg, none, []⟩ := by
  push_neg at h
  simp [Env.apply, h.1, h.2]

/-- An environment whose three activation routines register nothing
(every optional dependency importable, all routines already idempotent
no-ops); used to instantiate theorems at concrete inputs. -/
def envIdle : Env Nat :=
  ⟨ActivationRoutine.registers [], ActivationRoutine.registers [],
    ActivationRoutine.registers []⟩

/-- C1: registering a strategy under an identity and then resolving that
identity returns exactly the registered instance, provided the activation
block run by `get_default_strategy` neither raises nor performs an
intervening registration for that identity (its lookup key is preserved). -/
theorem register_then_get_same_instance {S : Type} (env : Env S) (action : StrategyAction)
    (backend : String) (version : Int) (s : S) (reg : Registry S)
    (h1 : (env.apply backend (register_default_strategy action backend version s reg)).err =
      none)
    (h2 : (env.apply backend (register_default_strategy action backend version s reg)).registry
            action.value (backend, version) =
          register_default_strategy action backend version s reg action.value
            (backend, version)) :
    (get_default_strategy env action backend version
        (register_default_strategy action backend version s reg)).1 = GetResult.ok s := by
  simp only [get_default_strategy]
  rw [h1, h2, register_lookup_self]

/-- Witness for C1 at concrete inputs (backend zarr, idle activation). -/
theorem register_then_get_same_instance_witness :
    (get_default_strategy envIdle StrategyAction.SAVE_SHARDED "zarr" 2
        (register_default_strategy StrategyAction.SAVE_SHARDED "zarr" 2 (42 : Nat)
          emptyRegistry)).1 = GetResult.ok 42 :=
  register_then_get_same_instance envIdle StrategyAction.SAVE_SHARDED "zarr" 2 42
    emptyRegistry rfl rfl

/-- C7: registering `s1` then `s2` under the same identity leaves exactly
`s2` registered, and a subsequent resolve (with the activation block
neither raising nor re-registering that identity) returns `s2`. -/
theorem double_register_last_wins {S : Type} (env : Env S) (action : StrategyAction)
    (backend : String) (version : Int) (s1 s2 : S) (reg : Registry S)
    (h1 : (env.apply backend (register_default_strategy action backend version s2
            (register_default_strategy action backend version s1 reg))).err = none)
    (h2 : (env.apply backend (register_default_strategy action backend version s2
            (register_default_strategy action backend version s1 reg))).registry
            action.value (backend, version) =
          register_default_strategy action backend version s2
            (register_default_strategy action backend version s1 reg) action.value
            (backend, version)) :
    register_default_strategy action backend version s2
        (register_default_strategy action backend version s1 reg) action.value
        (backend, version) = some s2 ∧
    (get_default_strategy env action backend version
        (register_default_strategy action backend version s2
          (register_default_strategy action backend version s1 reg))).1 =
      GetResult.ok s2 := by
  refine ⟨register_lookup_self .., ?_⟩
  simp only [get_default_strategy]
  rw [h1, h2, register_lookup_self]

/-- Witness for C7 at concrete inputs. -/
theorem double_register_last_wins_witness :
    register_default_strategy StrategyAction.LOAD_SHARDED "local" 1 (9 : Nat)
        (register_default_strategy StrategyAction.LOAD_SHARDED "local" 1 (8 : Nat)
          emptyRegistry) StrategyAction.LOAD_SHARDED.value ("local", 1) = some 9 ∧
    (get_default_strategy envIdle StrategyAction.LOAD_SHARDED "local" 1
        (register_default_strategy StrategyAction.LOAD_SHARDED "local" 1 (9 : Nat)
          (register_default_strategy StrategyAction.LOAD_SHARDED "local" 1 (8 : Nat)
            emptyRegistry))).1 = GetResult.ok 9 :=
  double_register_last_wins envIdle StrategyAction.LOAD_SHARDED "local" 1 8 9
    emptyRegistry rfl rfl

/-- C3: resolving an identity whose backend has no activation routine and
no registered strategy raises the checkpointing-domain "cannot find" error,
and the same error is raised when activation succeeds but the exact triple
was never registered. -/
theorem missing_strategy_raises_not_found {S : Type} (env : Env S) (action : StrategyAction)
    (backend : String) (version : Int) (reg : Registry S) :
    (¬(backend = "zarr" ∨ backend = "torch_dist") →
      reg action.value (backend, version) = none →
      (get_default_strategy env action backend version reg).1 =
        GetResult.checkpointingException (cannotFindMsg action backend version)) ∧
    ((env.apply backend reg).err = none →
      (env.apply backend reg).registry action.value (backend, version) = none →
      (get_default_strategy env action backend version reg).1 =
        GetResult.checkpointingException (cannotFindMsg action backend version)) := by
  constructor
  · intro hnb hmiss
    simp only [get_default_strategy, Env.apply_no_routine env backend reg hnb]
    rw [hmiss]
  · intro herr hmiss
    simp only [get_default_strategy]
    rw [herr, hmiss]

/-- Witness for C3: an unregistered backend with no routine, and the zarr
backend after a successful but empty activation. -/
theorem missing_strategy_raises_not_found_witness :
    (get_default_strategy envIdle StrategyAction.LOAD_COMMON "local" 3
        (emptyRegistry : Registry Nat)).1 =
      GetResult.checkpointingException
        (cannotFindMsg StrategyAction.LOAD_COMMON "local" 3) ∧
    (get_default_strategy envIdle StrategyAction.LOAD_COMMON "zarr" 3
        (emptyRegistry : Registry Nat)).1 =
      GetResult.checkpointingException
        (cannotFindMsg StrategyAction.LOAD_COMMON "zarr" 3) :=
  ⟨(missing_strategy_raises_not_found envIdle StrategyAction.LOAD_COMMON "local" 3
      emptyRegistry).1 (by decide) rfl,
   (missing_strategy_raises_not_found envIdle StrategyAction.LOAD_COMMON "zarr" 3
      emptyRegistry).2 rfl rfl⟩

/-- C4: when the backend activation raises an `ImportError`, resolution
raises the checkpointing-domain error whose message contains both the
attempted identity and the backend-supplied installation hint. -/
theorem backend_unavailable_carries_hint {S : Type} (env : Env S) (action : StrategyAction)
    (backend : String) (version : Int) (reg : Registry S) (m : String)
    (h : (env.apply backend reg).err = some (PyErr.importError m)) :
    (get_default_strategy env action backend version reg).1 =
      GetResult.checkpointingException
        (cannotImportMsg action backend version m (env.apply backend reg).error_hint) ∧
    (identRepr action backend version).data <:+:
      (cannotImportMsg action backend version m (env.apply backend reg).error_hint).data ∧
    ((env.apply backend reg).error_hint).data <:+:
      (cannotImportMsg action backend version m (env.apply backend reg).error_hint).data := by
  refine ⟨?_, ?_, ?_⟩
  · simp only [get_default_strategy]
    rw [h]
  · exact ⟨("Cannot import a default strategy for: ").data,
      (". Error: " ++ m ++ ". Hint: " ++ (env.apply backend reg).error_hint).data, by
        simp [cannotImportMsg, String.data_append]⟩
  · exact ⟨("Cannot import a default strategy for: " ++ identRepr action backend version ++
      ". Error: " ++ m ++ ". Hint: ").data, [], by
        simp [cannotImportMsg, String.data_append]⟩

/-- An environment in which importing the tensorstore backend module fails
(the optional dependency is not installed). -/
def envNoTensorstore : Env Nat :=
  ⟨ActivationRoutine.fails (PyErr.importError "No module named tensorstore"),
    ActivationRoutine.registers [], ActivationRoutine.registers []⟩

/-- Witness for C4 at concrete inputs (zarr backend, import failure). -/
theorem backend_unavailable_carries_hint_witness :
    (get_default_strategy envNoTensorstore StrategyAction.LOAD_SHARDED "zarr" 1
        (emptyRegistry : Registry Nat)).1 =
      GetResult.checkpointingException
        (cannotImportMsg StrategyAction.LOAD_SHARDED "zarr" 1 "No module named tensorstore"
          (envNoTensorstore.apply "zarr" emptyRegistry).error_hint) ∧
    (identRepr StrategyAction.LOAD_SHARDED "zarr" 1).data <:+:
      (cannotImportMsg StrategyAction.LOAD_SHARDED "zarr" 1 "No module named tensorstore"
        (envNoTensorstore.apply "zarr" emptyRegistry).error_hint).data ∧
    ((envNoTensorstore.apply "zarr" (emptyRegistry : Registry Nat)).error_hint).data <:+:
      (cannotImportMsg StrategyAction.LOAD_SHARDED "zarr" 1 "No module named tensorstore"
        (envNoTensorstore.apply "zarr" emptyRegistry).error_hint).data :=
  backend_unavailable_carries_hint envNoTensorstore StrategyAction.LOAD_SHARDED "zarr" 1
    emptyRegistry "No module named tensorstore" rfl

/-- Counterexample to C5: with a strategy already registered for the zarr
backend, a resolve for zarr still invokes the activation routines (the
trace of routine calls is nonempty), contrary to "activation is attempted
exactly when no strategy has ever been registered for that backend". -/
theorem activation_on_first_lookup_refuted :
    register_default_strategy StrategyAction.SAVE_SHARDED "zarr" 1 (7 : Nat) emptyRegistry
        "save_sharded" ("zarr", 1) = some 7 ∧
    (get_default_strategy envIdle StrategyAction.SAVE_SHARDED "zarr" 1
        (register_default_strategy StrategyAction.SAVE_SHARDED "zarr" 1 (7 : Nat)
          emptyRegistry)).2.2 ≠ [] := by
  constructor
  · decide
  · decide

/-- C5 amended: `get_default_strategy` attempts the backend
self-registration routines exactly when the backend is zarr or torch_dist,
on every call (before the triple lookup), regardless of what is already
registered; other backends are never activated. -/
theorem activation_attempted_iff_known_backend {S : Type} (env : Env S)
    (action : StrategyAction) (backend : String) (version : Int) (reg : Registry S) :
    (get_default_strategy env action backend version reg).2.2 ≠ [] ↔
      backend = "zarr" ∨ backend = "torch_dist" := by
  have htr : (get_default_strategy env action backend version reg).2.2 =
      (env.apply backend reg).trace := rfl
  rw [htr]
  by_cases h1 : backend = "zarr"
  · subst h1
    simp only [Env.apply, if_pos rfl]
    rcases env.register_default_tensorstore_strategies with l | e
    · rcases env.register_default_zarr_strategies with l2 | e2 <;>
        simp [ActivationRoutine.run, runRegs]
    · simp [ActivationRoutine.run]
  · by_cases h2 : backend = "torch_dist"
    · subst h2
      simp only [Env.apply]
      rcases env.register_default_torch_strategies with l | e <;>
        simp [ActivationRoutine.run, h1]
    · rw [Env.apply_no_routine env backend reg (by tauto)]
      simp [h1, h2]

/-- An environment whose torch backend activation raises an exception that
is not an `ImportError`. -/
def envTorchBoom : Env Nat :=
  ⟨ActivationRoutine.registers [], ActivationRoutine.registers [],
    ActivationRoutine.fails (PyErr.otherError "boom")⟩

/-- Counterexample to C6: when the torch_dist activation routine raises a
non-import exception, `get_default_strategy` surfaces the original
low-level error unwrapped rather than a checkpointing-domain error. -/
theorem wrap_all_errors_refuted :
    (get_default_strategy envTorchBoom StrategyAction.SAVE_SHARDED "torch_dist" 1
        (emptyRegistry : Registry Nat)).1 =
      GetResult.uncaught (PyErr.otherError "boom") := by
  decide

/-- C6 amended: the error surfaced by `get_default_strategy` escapes
unwrapped exactly when the activation routine raises something that is not
an `ImportError`; import failures and missing-triple lookups are wrapped
into the checkpointing-domain error. -/
theorem unwrapped_iff_non_import_error {S : Type} (env : Env S) (action : StrategyAction)
    (backend : String) (version : Int) (reg : Registry S) :
    (∃ e, (get_default_strategy env action backend version reg).1 = GetResult.uncaught e) ↔
      (∃ m, (env.apply backend reg).err = some (PyErr.otherError m)) := by
  simp only [get_default_strategy]
  rcases herr : (env.apply backend reg).err with _ | e
  · rcases hl : (env.apply backend reg).registry action.value (backend, version) with _ | s <;>
      simp [herr, hl]
  · rcases e with m | m <;> simp [herr]

/-- Registering under one identity does not change the entry at any other
two-level key. -/
theorem register_lookup_other {S : Type} (a1 : StrategyAction) (b1 : String) (v1 : Int)
    (s : S) (reg : Registry S) (a2 : StrategyAction) (b2 : String) (v2 : Int)
    (h : (a1, b1, v1) ≠ (a2, b2, v2)) :
    register_default_strategy a1 b1 v1 s reg a2.value (b2, v2) =
      reg a2.value (b2, v2) := by
  simp only [register_default_strategy]
  rw [if_neg]
  rintro ⟨hv, hk⟩
  apply h
  obtain rfl := StrategyAction.value_inj a2 a1 hv
  obtain ⟨rfl, rfl⟩ := Prod.mk.injEq .. ▸ hk
  rfl

/-- Running a list of registrations preserves pointwise agreement of two
registries at any fixed key. -/
theorem runRegs_congr_at {S : Type} (l : List (StrategyAction × String × Int × S))
    (reg reg' : Registry S) (a : String) (k : String × Int)
    (h : reg a k = reg' a k) : runRegs l reg a k = runRegs l reg' a k := by
  induction l generalizing reg reg' with
  | nil => exact h
  | cons q l ih =>
    apply ih
    simp only [register_default_strategy]
    split
    · rfl
    · exact h

/-- The exception raised (if any), the routine trace, and the hint of the
activation block do not depend on the registry contents. -/
theorem Env.apply_control_indep {S : Type} (env : Env S) (b : String)
    (reg reg' : Registry S) :
    (env.apply b reg).err = (env.apply b reg').err ∧
    (env.apply b reg).trace = (env.apply b reg').trace ∧
    (env.apply b reg).error_hint = (env.apply b reg').error_hint := by
  unfold Env.apply
  by_cases h1 : b = "zarr"
  · subst h1
    rcases env.register_default_tensorstore_strategies with l | e
    · rcases env.register_default_zarr_strategies with l2 | e2 <;>
        simp [ActivationRoutine.run]
    · simp [ActivationRoutine.run]
  · by_cases h2 : b = "torch_dist"
    · subst h2
      rcases env.register_default_torch_strategies with l | e <;>
        simp [ActivationRoutine.run, h1]
    · simp [h1, h2]

/-- The activation block preserves pointwise agreement of two registries
at any fixed key. -/
theorem Env.apply_registry_congr_at {S : Type} (env : Env S) (b : String)
    (reg reg' : Registry S) (a : String) (k : String × Int)
    (h : reg a k = reg' a k) :
    (env.apply b reg).registry a k = (env.apply b reg').registry a k := by
  unfold Env.apply
  by_cases h1 : b = "zarr"
  · subst h1
    rcases env.register_default_tensorstore_strategies with l | e
    · rcases env.register_default_zarr_strategies with l2 | e2
      · simpa [ActivationRoutine.run] using
          runRegs_congr_at l2 _ _ a k (runRegs_congr_at l _ _ a k h)
      · simpa [ActivationRoutine.run] using runRegs_congr_at l _ _ a k h
    · simpa [ActivationRoutine.run] using h
  · by_cases h2 : b = "torch_dist"
    · subst h2
      rcases env.register_default_torch_strategies with l | e
      · simpa [ActivationRoutine.run, h1] using runRegs_congr_at l _ _ a k h
      · simpa [ActivationRoutine.run, h1] using h
    · simpa [h1, h2] using h

/-- C10: registering under identity I1 leaves the registry entry for any
distinct identity I2 unchanged, and a resolve of I2 returns the same
result before and after the registration for I1. -/
theorem register_frame {S : Type} (env : Env S) (a1 : StrategyAction) (b1 : String)
    (v1 : Int) (s : S) (a2 : StrategyAction) (b2 : String) (v2 : Int) (reg : Registry S)
    (h : (a1, b1, v1) ≠ (a2, b2, v2)) :
    register_default_strategy a1 b1 v1 s reg a2.value (b2, v2) = reg a2.value (b2, v2) ∧
    (get_default_strategy env a2 b2 v2 (register_default_strategy a1 b1 v1 s reg)).1 =
      (get_default_strategy env a2 b2 v2 reg).1 := by
  have hentry := register_lookup_other a1 b1 v1 s reg a2 b2 v2 h
  refine ⟨hentry, ?_⟩
  have hctl := Env.apply_control_indep env b2 (register_default_strategy a1 b1 v1 s reg) reg
  have hlook := Env.apply_registry_congr_at env b2
    (register_default_strategy a1 b1 v1 s reg) reg a2.value (b2, v2) hentry
  simp only [get_default_strategy]
  rw [hctl.1, hctl.2.2, hlook]

/-- Witness for C10 at concrete distinct identities. -/
theorem register_frame_witness :
    (StrategyAction.SAVE_SHARDED, "local", (1 : Int)) ≠
        (StrategyAction.LOAD_SHARDED, "local", (1 : Int)) ∧
    (register_default_strategy StrategyAction.SAVE_SHARDED "local" 1 (5 : Nat) emptyRegistry
        StrategyAction.LOAD_SHARDED.value ("local", 1) =
      emptyRegistry StrategyAction.LOAD_SHARDED.value ("local", 1) ∧
    (get_default_strategy envIdle StrategyAction.LOAD_SHARDED "local" 1
        (register_default_strategy StrategyAction.SAVE_SHARDED "local" 1 (5 : Nat)
          emptyRegistry)).1 =
      (get_default_strategy envIdle StrategyAction.LOAD_SHARDED "local" 1
        (emptyRegistry : Registry Nat)).1) :=
  ⟨by decide,
   register_frame envIdle StrategyAction.SAVE_SHARDED "local" 1 5
     StrategyAction.LOAD_SHARDED "local" 1 emptyRegistry (by decide)⟩

/-- Result of a Python method that either returns a value or raises
`NotImplementedError` with a message. -/
inductive PyResult (A : Type) where
  | ok (a : A)
  | notImplementedError (msg : String)
deriving DecidableEq

/-- A sharded state dict as the metadata methods produce it: a mapping
from sharded keys to (data-free) values; `V` is the value type, `Dir` the
checkpoint-directory type. -/
abbrev MetaDict (V : Type) := List (String × V)

/-- A `LoadCommonStrategy` instance, carrying the (overridable)
`can_handle_sharded_objects` property, which the base class defaults to
`False`. -/
structure LoadCommonStrategy (Dir V : Type) where
  can_handle_sharded_objects : Bool

/-- `LoadCommonStrategy.load_sharded_metadata` (the base-class body):
return the empty dict when the strategy cannot handle sharded objects,
otherwise raise `NotImplementedError`. -/
def LoadCommonStrategy.load_sharded_metadata {Dir V : Type}
    (self : LoadCommonStrategy Dir V) (checkpoint_dir : Dir) : PyResult (MetaDict V) :=
  if !self.can_handle_sharded_objects then PyResult.ok []
  else PyResult.notImplementedError ""

/-- A `LoadShardedStrategy` instance: the `can_handle_sharded_objects`
property, the subclass-supplied `load_tensors_metadata` implementation
(the method is abstract in the base class), and the class name used in the
`NotImplementedError` message. -/
structure LoadShardedStrategy (Dir V : Type) where
  can_handle_sharded_objects : Bool
  load_tensors_metadata : Dir → PyResult (MetaDict V)
  className : String

/-- `LoadShardedStrategy.load_sharded_metadata` (the base-class body):
delegate to `load_tensors_metadata` when the strategy cannot handle
sharded objects, otherwise raise `NotImplementedError` naming the class. -/
def LoadShardedStrategy.load_sharded_metadata {Dir V : Type}
    (self : LoadShardedStrategy Dir V) (checkpoint_dir : Dir) : PyResult (MetaDict V) :=
  if !self.can_handle_sharded_objects then self.load_tensors_metadata checkpoint_dir
  else PyResult.notImplementedError
    ("Loading only sharded metadata not implemented for " ++ self.className)

/-- Counterexample to C8: a `LoadShardedStrategy` with
`can_handle_sharded_objects == False` does not return an empty mapping
from `load_sharded_metadata`; it delegates to `load_tensors_metadata`,
here returning a nonempty dict. -/
theorem empty_metadata_refuted :
    (⟨false, fun _ => PyResult.ok [("weight", 3)], "TestShardedLoad"⟩ :
        LoadShardedStrategy Unit Nat).can_handle_sharded_objects = false ∧
    (⟨false, fun _ => PyResult.ok [("weight", 3)], "TestShardedLoad"⟩ :
        LoadShardedStrategy Unit Nat).load_sharded_metadata () ≠ PyResult.ok [] := by
  constructor
  · rfl
  · decide

/-- C8 amended: a `LoadCommonStrategy` with
`can_handle_sharded_objects == False` returns an empty mapping from
`load_sharded_metadata` without raising; the `LoadShardedStrategy` default
instead delegates to `load_tensors_metadata`. -/
theorem common_empty_metadata {Dir V : Type} (self : LoadCommonStrategy Dir V)
    (checkpoint_dir : Dir) (h : self.can_handle_sharded_objects = false) :
    self.load_sharded_metadata checkpoint_dir = PyResult.ok [] := by
  simp [LoadCommonStrategy.load_sharded_metadata, h]

/-- Witness for the amended C8 at a concrete strategy. -/
theorem common_empty_metadata_witness :
    (⟨false⟩ : LoadCommonStrategy Unit Nat).load_sharded_metadata () = PyResult.ok [] :=
  common_empty_metadata ⟨false⟩ () rfl

/-- C9: a `LoadShardedStrategy` that cannot handle sharded objects
delegates `load_sharded_metadata` to `load_tensors_metadata`; one that can
(without overriding the method) raises `NotImplementedError`. -/
theorem sharded_metadata_delegates {Dir V : Type} (self : LoadShardedStrategy Dir V)
    (checkpoint_dir : Dir) :
    (self.can_handle_sharded_objects = false →
      self.load_sharded_metadata checkpoint_dir =
        self.load_tensors_metadata checkpoint_dir) ∧
    (self.can_handle_sharded_objects = true →
      self.load_sharded_metadata checkpoint_dir =
        PyResult.notImplementedError
          ("Loading only sharded metadata not implemented for " ++ self.className)) := by
  constructor
  · intro h
    simp [LoadShardedStrategy.load_sharded_metadata, h]
  · intro h
    simp [LoadShardedStrategy.load_sharded_metadata, h]

/-- Witness for C9: both branches at concrete strategies. -/
theorem sharded_metadata_delegates_witness :
    (⟨false, fun _ => PyResult.ok [("weight", 3)], "TensOnly"⟩ :
        LoadShardedStrategy Unit Nat).load_sharded_metadata () =
      (⟨false, fun _ => PyResult.ok [("weight", 3)], "TensOnly"⟩ :
        LoadShardedStrategy Unit Nat).load_tensors_metadata () ∧
    (⟨true, fun _ => PyResult.ok [], "Both"⟩ :
        LoadShardedStrategy Unit Nat).load_sharded_metadata () =
      PyResult.notImplementedError
        ("Loading only sharded metadata not implemented for " ++ "Both") :=
  ⟨(sharded_metadata_delegates
      (⟨false, fun _ => PyResult.ok [("weight", 3)], "TensOnly"⟩ :
        LoadShardedStrategy Unit Nat) ()).1 rfl,
   (sharded_metadata_delegates
      (⟨true, fun _ => PyResult.ok [], "Both"⟩ : LoadShardedStrategy Unit Nat) ()).2 rfl⟩

/-- Modelled from the spec: `async_utils.AsyncRequest` (its module is not
among the verified sources) is a deferred execute/finalize pair; both act
on the persisted state of type `W` (the world: checkpoint directory
contents plus bookkeeping), `finalize` to be run after `execute`. -/
structure AsyncRequest (W : Type) where
  execute : W → W
  finalize : W → W

/-- Modelled from the spec: `async_utils.AsyncCallsQueue`, an ordered FIFO
queue of outstanding async requests. -/
structure AsyncCallsQueue (W : Type) where
  queue : List (AsyncRequest W)

/-- Modelled from the spec: `schedule_async_request` appends the request
at the tail of the queue and runs nothing. -/
def AsyncCallsQueue.schedule_async_request {W : Type} (self : AsyncCallsQueue W)
    (async_request : AsyncRequest W) : AsyncCallsQueue W :=
  ⟨self.queue ++ [async_request]⟩

/-- Modelled from the spec: `maybe_finalize_async_calls` with
`blocking=True` processes the queue strictly in FIFO order, running each
entry's `execute` (if not already run) then `finalize` and removing it.
The non-blocking variant depends on polling a background worker and is not
modelled. -/
def AsyncCallsQueue.maybe_finalize_async_calls_blocking {W : Type}
    (self : AsyncCallsQueue W) (w : W) : AsyncCallsQueue W × W :=
  (⟨[]⟩, self.queue.foldl (fun acc r => r.finalize (r.execute acc)) w)

/-- An `AsyncSaveShardedStrategy` instance: backend/version identity plus
the subclass-supplied `async_save` implementation (abstract in the base
class), which prepares and returns an `AsyncRequest`. -/
structure AsyncSaveShardedStrategy (SSD Dir W : Type) where
  backend : String
  version : Int
  async_save : SSD → Dir → AsyncRequest W

/-- `AsyncSaveShardedStrategy.save` (the base-class body): obtain the
request from `async_save`, schedule it on the shared Async Calls Queue,
then finalize in blocking mode; returns the queue and persisted state. -/
def AsyncSaveShardedStrategy.save {SSD Dir W : Type}
    (self : AsyncSaveShardedStrategy SSD Dir W) (sharded_state_dict : SSD)
    (checkpoint_dir : Dir) (async_calls : AsyncCallsQueue W) (w : W) :
    AsyncCallsQueue W × W :=
  let async_request := self.async_save sharded_state_dict checkpoint_dir
  (async_calls.schedule_async_request async_request).maybe_finalize_async_calls_blocking w

/-- C2: `save` is the composition async_save, then schedule, then blocking
finalize — from any starting queue and world the two paths produce the
identical queue and persisted state; starting from the empty queue the
persisted state is exactly finalize-after-execute of the one request. -/
theorem save_equals_async_then_finalize {SSD Dir W : Type}
    (self : AsyncSaveShardedStrategy SSD Dir W) (sharded_state_dict : SSD)
    (checkpoint_dir : Dir) (async_calls : AsyncCallsQueue W) (w : W) :
    self.save sharded_state_dict checkpoint_dir async_calls w =
      (async_calls.schedule_async_request
        (self.async_save sharded_state_dict checkpoint_dir)).maybe_finalize_async_calls_blocking
        w ∧
    (self.save sharded_state_dict checkpoint_dir ⟨[]⟩ w).2 =
      (self.async_save sharded_state_dict checkpoint_dir).finalize
        ((self.async_save sharded_state_dict checkpoint_dir).execute w) := by
  constructor
  · rfl
  · simp [AsyncSaveShardedStrategy.save, AsyncCallsQueue.schedule_async_request,
      AsyncCallsQueue.maybe_finalize_async_calls_blocking]

end Megatron
